import Mathlib

/-!
Shallow embedding of `fonalib.py` (class `Fona`): a driver for the AdaFruit
Fona cellular modem over a serial link.

Modelling choices, all driven directly by the Python source:

* The serial transport is an external collaborator.  Its observable behaviour
  is threaded through a `World` record: the queue of pending responses
  (`responses`, one entry consumed per `__request__` call; an exhausted queue
  yields the empty line list, which the transport contract permits), the exact
  byte strings written to the port (`writes`, each carrying the trailing
  carriage return the code appends), the fixed sleeps performed (`sleeps`),
  and every successive assignment to the `__status__` field (`statusLog`).
* Python exceptions are modelled with the result type `Res`: `Res.ok` is a
  normal return carrying the value, the mutated object state and the world;
  `Res.exn` is a raised exception carrying the same.  `Exn.err` is the
  `Exception(msg)` raised by `__log__` at level `LOG_ERROR`; `Exn.indexError`
  is the `IndexError` raised by out-of-range list indexing (`rc[len(rc)-1]`
  on an empty list, `rc[2]` on a short one); `Exn.attributeError` is the
  `AttributeError` raised when a method touches `self.__serial__` while it is
  `None`; `Exn.serialError` stands for the exception raised by
  `serial.Serial(...)` when the port cannot be opened.
* `datetime.now()` is not a pure value; the log-message timestamp is
  abstracted to the fixed placeholder `"[t]"`.  Nothing below depends on it
  beyond the message being a non-empty string, which is timestamp independent.
* Calls that can attempt to open a serial port (`open`, `panic`) take an
  explicit `serialOk : Bool` telling whether `serial.Serial(port, speed)`
  succeeds.
-/

namespace Fonalib

/-- `Fona.OPEN_RETRY_COUNT`: how many "AT" attempts before giving up. -/
def OPEN_RETRY_COUNT : Nat := 3

/-- `Fona.OPEN_RETRY_SLEEP`: delay between two attempts (seconds). -/
def OPEN_RETRY_SLEEP : Nat := 5

/-- `Fona.STATUS_CLOSED`: serial connection not yet opened. -/
def STATUS_CLOSED : Nat := 0

/-- `Fona.STATUS_OPENING`: opening serial port and checking for fona presence. -/
def STATUS_OPENING : Nat := 1

/-- `Fona.STATUS_DISCONNECTED`: serial connection OK but no carrier. -/
def STATUS_DISCONNECTED : Nat := 2

/-- `Fona.STATUS_CONNECTING`: enter PIN code and connect to an operator. -/
def STATUS_CONNECTING : Nat := 3

/-- `Fona.STATUS_IDLE`: ready to process a command. -/
def STATUS_IDLE : Nat := 4

/-- `Fona.STATUS_BUSY`: command being processed. -/
def STATUS_BUSY : Nat := 5

/-- `Fona.STATUS_ERROR`: module in unrecoverable error state. -/
def STATUS_ERROR : Nat := 999

/-- `Fona.LOG_INFO`. -/
def LOG_INFO : Nat := 0

/-- `Fona.LOG_WARNING`. -/
def LOG_WARNING : Nat := 1

/-- `Fona.LOG_ERROR`. -/
def LOG_ERROR : Nat := 2

/-- The mutable fields of a `Fona` object: the four constructor parameters,
whether `self.__serial__` is a live handle (`None` ↦ `false`), the
`__status__` field and the `__error__` field. -/
structure FonaState where
  port : String
  speed : Nat
  pin : String
  verbose : Bool
  serialOpen : Bool
  status : Nat
  error : Option String
deriving Repr, DecidableEq

/-- The observable interaction with the outside world: pending serial
responses, bytes written to the serial port, sleeps performed, and the
successive values assigned to `__status__`. -/
structure World where
  responses : List (List String)
  writes : List String
  sleeps : List Nat
  statusLog : List Nat
deriving Repr, DecidableEq

/-- Python exceptions that the embedded methods can raise. -/
inductive Exn where
  | err : String → Exn
  | indexError : Exn
  | attributeError : Exn
  | serialError : Exn
deriving Repr, DecidableEq

/-- Outcome of running a method: normal return or raised exception, in both
cases together with the object state and the world at that moment. -/
inductive Res (α : Type) where
  | ok : α → FonaState → World → Res α
  | exn : Exn → FonaState → World → Res α
deriving Repr, DecidableEq

/-- Object state at the end of the run, raised or not. -/
def Res.state {α : Type} : Res α → FonaState
  | Res.ok _ st _ => st
  | Res.exn _ st _ => st

/-- World at the end of the run, raised or not. -/
def Res.world {α : Type} : Res α → World
  | Res.ok _ _ w => w
  | Res.exn _ _ w => w

/-- `true` iff the run ended with a raised exception. -/
def Res.raised {α : Type} : Res α → Bool
  | Res.ok _ _ _ => false
  | Res.exn _ _ _ => true

/-- The returned value, when the run returned normally. -/
def Res.valOf {α : Type} : Res α → Option α
  | Res.ok a _ _ => some a
  | Res.exn _ _ _ => none

/-- The raised exception, when the run raised. -/
def Res.exnOf {α : Type} : Res α → Option Exn
  | Res.ok _ _ _ => none
  | Res.exn e _ _ => some e

/-- Sequencing that propagates a raised exception, mirroring Python control
flow: a raised exception aborts the rest of the method. -/
def Res.bind {α β : Type} : Res α → (α → FonaState → World → Res β) → Res β
  | Res.ok a st w, f => f a st w
  | Res.exn e st w, _ => Res.exn e st w

/-- An assignment `self.__status__ = s`, also recorded in the world's
`statusLog`. -/
def setStatus (st : FonaState) (w : World) (s : Nat) : FonaState × World :=
  ({ st with status := s }, { w with statusLog := w.statusLog ++ [s] })

/-- The string `"[%s] %s(): %s" % (datetime.now().time(), source, message)`,
with the timestamp abstracted to `"[t]"`. -/
def logMsg (source message : String) : String :=
  "[t] " ++ source ++ "(): " ++ message

/-- `Fona.__log__(source, message, level)`: at `LOG_WARNING` and `LOG_ERROR`
stores the formatted message in `self.__error__`; at `LOG_ERROR` additionally
sets `self.__status__ = STATUS_ERROR` and raises `Exception(self.__error__)`.
(The `print` at verbose level has no modelled effect.) -/
def __log__ (st : FonaState) (w : World) (source message : String) (level : Nat) : Res Unit :=
  let msg := logMsg source message
  let st1 := if level = LOG_WARNING ∨ level = LOG_ERROR then { st with error := some msg } else st
  if level = LOG_ERROR then
    let sw := setStatus st1 w STATUS_ERROR
    Res.exn (Exn.err msg) sw.1 sw.2
  else
    Res.ok () st1 w

/-- `Fona.__request__(command)`: writes `command + "\r"` to the serial port,
flushes, reads whatever lines are currently available (the next queued
response; an exhausted queue reads as no lines).  Touching `self.__serial__`
while it is `None` raises `AttributeError`. -/
def __request__ (st : FonaState) (w : World) (command : String) : Res (List String) :=
  if st.serialOpen then
    let w1 := { w with writes := w.writes ++ [command ++ "\r"] }
    match w1.responses with
    | [] => Res.ok [] st w1
    | r :: rest => Res.ok r st { w1 with responses := rest }
  else
    Res.exn Exn.attributeError st w

/-- Python `s.startswith(p)`: is `p` a prefix of `s`'s code-point sequence? -/
def pyStartsWith (s p : String) : Bool :=
  p.data.isPrefixOf s.data

/-- The test `len(rc) != 0 and rc[len(rc) - 1].startswith("OK")` guarding
success in `Fona.open`. -/
def okResp (rc : List String) : Bool :=
  match rc.getLast? with
  | some l => pyStartsWith l "OK"
  | none => false

/-- The retry loop of `Fona.open`: `while retry > 0:` issue `"AT"`; on a
response whose last line starts with `"OK"` set `STATUS_DISCONNECTED` and
return `True`; otherwise decrement and `time.sleep(OPEN_RETRY_SLEEP)`.  When
the counter is exhausted, `__log__(..., LOG_ERROR)` raises. -/
def openAttempts (st : FonaState) (w : World) : Nat → Res Bool
  | 0 =>
      (__log__ st w "open" "AT command does not provide the expected result" LOG_ERROR).bind
        (fun _ st w => Res.ok false st w)
  | Nat.succ retry =>
      (__request__ st w "AT").bind (fun rc st w =>
        if okResp rc then
          let sw := setStatus st w STATUS_DISCONNECTED
          Res.ok true sw.1 sw.2
        else
          openAttempts st { w with sleeps := w.sleeps ++ [OPEN_RETRY_SLEEP] } retry)

/-- `Fona.open()`: clears `__error__`; from any status other than
`STATUS_CLOSED` fatally logs "unknown status"; otherwise sets
`STATUS_OPENING`, acquires the serial handle (failure is a fatal log), and
runs the `"AT"` retry loop `OPEN_RETRY_COUNT` times. -/
def «open» (st : FonaState) (w : World) (serialOk : Bool) : Res Bool :=
  let st := { st with error := none }
  if st.status ≠ STATUS_CLOSED then
    (__log__ st w "open"
        ("Cannot open serial port: unknown status (" ++ toString st.status ++ ")")
        LOG_ERROR).bind
      (fun _ st w => Res.ok false st w)
  else
    let sw := setStatus st w STATUS_OPENING
    if serialOk then
      openAttempts { sw.1 with serialOpen := true } sw.2 OPEN_RETRY_COUNT
    else
      (__log__ sw.1 sw.2 "open" "Error while opening serial port" LOG_ERROR).bind
        (fun _ st w => Res.ok false st w)

/-- `Fona.is_connected()`: when `self.__serial__` is live, issues
`"AT+COPS?"`; a final line differing from `"OK"` (strict equality) is a
`LOG_WARNING` and yields `False`; otherwise line index 2 equal to
`"+COPS: 0"` yields `False`, anything else `True`.  When `self.__serial__` is
`None` the method falls through and returns Python `None`.  The indexings
`rc[len(rc) - 1]` and `rc[2]` raise `IndexError` when out of range. -/
def is_connected (st : FonaState) (w : World) : Res (Option Bool) :=
  if st.serialOpen then
    (__request__ st w "AT+COPS?").bind (fun rc st w =>
      match rc.getLast? with
      | none => Res.exn Exn.indexError st w
      | some l =>
        if l ≠ "OK" then
          (__log__ st w "connect" "Unexpected result while checking phone network"
              LOG_WARNING).bind
            (fun _ st w => Res.ok (some false) st w)
        else
          match rc[2]? with
          | none => Res.exn Exn.indexError st w
          | some l2 =>
            if l2 = "+COPS: 0" then Res.ok (some false) st w
            else Res.ok (some true) st w)
  else
    Res.ok none st w

/-- `Fona.connect()`: clears `__error__`; from any status other than
`STATUS_DISCONNECTED` fatally logs; if `is_connected()` is truthy, logs info,
sets `STATUS_IDLE` and returns `True`; otherwise sets `STATUS_CONNECTING`,
issues `"AT+CPIN=<pin>"`, sleeps 10 seconds, re-checks `is_connected()`:
truthy sets `STATUS_IDLE` and returns `True`, falsy returns `False` (with the
status left at `STATUS_CONNECTING`). -/
def connect (st : FonaState) (w : World) : Res Bool :=
  let st := { st with error := none }
  if st.status ≠ STATUS_DISCONNECTED then
    (__log__ st w "connect" "Serial line is not opened: impossible to connect to the network"
        LOG_ERROR).bind
      (fun _ st w => Res.ok false st w)
  else
    (is_connected st w).bind (fun c st w =>
      if c = some true then
        (__log__ st w "connect" "Already connected -> Skipping PIN code" LOG_INFO).bind
          (fun _ st w =>
            let sw := setStatus st w STATUS_IDLE
            Res.ok true sw.1 sw.2)
      else
        let sw := setStatus st w STATUS_CONNECTING
        (__request__ sw.1 sw.2 ("AT+CPIN=" ++ st.pin)).bind (fun _ st w =>
          let w := { w with sleeps := w.sleeps ++ [10] }
          (is_connected st w).bind (fun c st w =>
            if c = some true then
              let sw := setStatus st w STATUS_IDLE
              Res.ok true sw.1 sw.2
            else
              Res.ok false st w)))

/-- `Fona.close()`: clears `__error__`, closes and drops the serial handle if
live, sets `STATUS_CLOSED`. -/
def close (st : FonaState) (w : World) : Res Unit :=
  let st := { st with error := none }
  let st := { st with serialOpen := false }
  let sw := setStatus st w STATUS_CLOSED
  Res.ok () sw.1 sw.2

/-- `Fona.panic()`: closes and drops the serial handle if live; opens a fresh
raw `serial.Serial(port, speed)` (failure propagates), writes
`"AT+CPOWD=1\r"`, flushes, closes it; then `__log__(..., LOG_ERROR)` raises.
It never clears `__error__` and never returns normally. -/
def panic (st : FonaState) (w : World) (serialOk : Bool) : Res Unit :=
  let st := { st with serialOpen := false }
  if serialOk then
    let w := { w with writes := w.writes ++ ["AT+CPOWD=1\r"] }
    __log__ st w "panic" "Device in panic mode" LOG_ERROR
  else
    Res.exn Exn.serialError st w

/-- `Fona.send(phone, message)`: clears `__error__`; issues `"AT+CMGF=1"`;
a final response line differing from `"OK"` (strict equality, indexing can
raise `IndexError`) is a `LOG_WARNING` and returns `False`; otherwise issues
`AT+CMGS="<phone>"` then the message body followed by the Ctrl-Z byte, and
returns `True` regardless of those responses.  No status field is touched. -/
def send (st : FonaState) (w : World) (phone message : String) : Res Bool :=
  let st := { st with error := none }
  (__request__ st w "AT+CMGF=1").bind (fun rc st w =>
    match rc.getLast? with
    | none => Res.exn Exn.indexError st w
    | some l =>
      if l ≠ "OK" then
        (__log__ st w "send" "The message format could not be set to TEXT" LOG_WARNING).bind
          (fun _ st w => Res.ok false st w)
      else
        (__request__ st w ("AT+CMGS=\"" ++ phone ++ "\"")).bind (fun _ st w =>
          (__request__ st w (message ++ "\x1a")).bind (fun _ st w =>
            Res.ok true st w)))

/-- The object state right after the field initializers of class `Fona` run:
parameters saved, `__serial__ = None`, `__status__ = STATUS_CLOSED`,
`__error__ = None`. -/
def initState (port : String) (speed : Nat) (pin : String) (verbose : Bool) : FonaState :=
  { port := port, speed := speed, pin := pin, verbose := verbose,
    serialOpen := false, status := STATUS_CLOSED, error := none }

/-- `Fona.__init__(port, speed, pin, verbose)`: builds the initial state,
calls `open()` inside `try/except` (any exception makes `rc = False` and the
constructor returns), then on success calls `connect()` the same way.  The
constructor always completes; it never re-raises. -/
def __init__ (port : String) (speed : Nat) (pin : String) (verbose : Bool)
    (w : World) (serialOk : Bool) : FonaState × World :=
  let st := initState port speed pin verbose
  match «open» st w serialOk with
  | Res.exn _ st w => (st, w)
  | Res.ok rc st w =>
    if rc then
      match connect st w with
      | Res.exn _ st w => (st, w)
      | Res.ok _ st w => (st, w)
    else (st, w)

/-! ## Theorems -/

/-- Claim C7: `panic()`, invoked from any starting state, closes the adapter
handle if open, opens a fresh raw connection solely to issue the hard
power-down command `AT+CPOWD=1`, closes it, and then always ends with the
session in the terminal Error state (`STATUS_ERROR`), never returning a
normal result (the outcome is a raised `Exception`). -/
theorem C7_panic_behavior (port : String) (speed : Nat) (pin : String)
    (verbose so : Bool) (stat : Nat) (e : Option String)
    (resp : List (List String)) (ws : List String) (sl : List Nat) (slog : List Nat) :
    panic ⟨port, speed, pin, verbose, so, stat, e⟩ ⟨resp, ws, sl, slog⟩ true =
      Res.exn (Exn.err (logMsg "panic" "Device in panic mode"))
        ⟨port, speed, pin, verbose, false, STATUS_ERROR,
          some (logMsg "panic" "Device in panic mode")⟩
        ⟨resp, ws ++ ["AT+CPOWD=1\r"], sl, slog ++ [STATUS_ERROR]⟩ := by
  simp [panic, __log__, setStatus, LOG_WARNING, LOG_ERROR]

/-- Claim C10: `is_connected()` and `send()` index the last line of the
response without an emptiness guard: on a read returning zero lines each
raises an unhandled `IndexError` instead of following the documented
Warning/Error handling, whereas `open()` guards the empty response and
reaches its documented fatal-Error path even when every probe read is
empty. -/
theorem C10_empty_response (port : String) (speed : Nat) (pin : String)
    (verbose : Bool) (stat : Nat) (e : Option String)
    (rest : List (List String)) (ws : List String) (sl : List Nat) (slog : List Nat)
    (phone msg : String) :
    (is_connected ⟨port, speed, pin, verbose, true, stat, e⟩
        ⟨[] :: rest, ws, sl, slog⟩).exnOf = some Exn.indexError ∧
    (send ⟨port, speed, pin, verbose, true, stat, e⟩
        ⟨[] :: rest, ws, sl, slog⟩ phone msg).exnOf = some Exn.indexError ∧
    («open» ⟨port, speed, pin, verbose, false, STATUS_CLOSED, e⟩
        ⟨[[], [], []], ws, sl, slog⟩ true).exnOf =
      some (Exn.err (logMsg "open" "AT command does not provide the expected result")) := by
  refine ⟨?_, ?_, ?_⟩ <;>
    simp [is_connected, send, «open», openAttempts, okResp, __request__, __log__, setStatus,
      Res.bind, Res.exnOf, OPEN_RETRY_COUNT, STATUS_CLOSED, LOG_WARNING, LOG_ERROR]

/-- Claim C3: `open()` requires the Closed state, raising a fatal Error
(status forced to `STATUS_ERROR`, exception raised) from any other state;
from Closed it acquires the adapter (`serialOpen` becomes true) and issues
the `AT` probe up to exactly 3 times with the 5-second sleep after each
failed attempt, returning `true` and entering `STATUS_DISCONNECTED` as soon
as the last line of a response starts with `"OK"` (first, second or third
attempt), and raising a fatal Error after all 3 attempts fail. -/
theorem C3_open_behavior (port : String) (speed : Nat) (pin : String)
    (verbose so : Bool) (stat : Nat) (e : Option String)
    (r1 r2 r3 : List String) (rest : List (List String))
    (ws : List String) (sl slog : List Nat) :
    (stat ≠ STATUS_CLOSED →
      «open» ⟨port, speed, pin, verbose, so, stat, e⟩
          ⟨r1 :: r2 :: r3 :: rest, ws, sl, slog⟩ true =
        Res.exn
          (Exn.err (logMsg "open"
            ("Cannot open serial port: unknown status (" ++ toString stat ++ ")")))
          ⟨port, speed, pin, verbose, so, STATUS_ERROR,
            some (logMsg "open"
              ("Cannot open serial port: unknown status (" ++ toString stat ++ ")"))⟩
          ⟨r1 :: r2 :: r3 :: rest, ws, sl, slog ++ [STATUS_ERROR]⟩) ∧
    (stat = STATUS_CLOSED → okResp r1 = true →
      «open» ⟨port, speed, pin, verbose, so, stat, e⟩
          ⟨r1 :: r2 :: r3 :: rest, ws, sl, slog⟩ true =
        Res.ok true
          ⟨port, speed, pin, verbose, true, STATUS_DISCONNECTED, none⟩
          ⟨r2 :: r3 :: rest, ws ++ ["AT\r"], sl,
            slog ++ [STATUS_OPENING, STATUS_DISCONNECTED]⟩) ∧
    (stat = STATUS_CLOSED → okResp r1 = false → okResp r2 = true →
      «open» ⟨port, speed, pin, verbose, so, stat, e⟩
          ⟨r1 :: r2 :: r3 :: rest, ws, sl, slog⟩ true =
        Res.ok true
          ⟨port, speed, pin, verbose, true, STATUS_DISCONNECTED, none⟩
          ⟨r3 :: rest, ws ++ ["AT\r", "AT\r"], sl ++ [OPEN_RETRY_SLEEP],
            slog ++ [STATUS_OPENING, STATUS_DISCONNECTED]⟩) ∧
    (stat = STATUS_CLOSED → okResp r1 = false → okResp r2 = false → okResp r3 = true →
      «open» ⟨port, speed, pin, verbose, so, stat, e⟩
          ⟨r1 :: r2 :: r3 :: rest, ws, sl, slog⟩ true =
        Res.ok true
          ⟨port, speed, pin, verbose, true, STATUS_DISCONNECTED, none⟩
          ⟨rest, ws ++ ["AT\r", "AT\r", "AT\r"], sl ++ [OPEN_RETRY_SLEEP, OPEN_RETRY_SLEEP],
            slog ++ [STATUS_OPENING, STATUS_DISCONNECTED]⟩) ∧
    (stat = STATUS_CLOSED → okResp r1 = false → okResp r2 = false → okResp r3 = false →
      «open» ⟨port, speed, pin, verbose, so, stat, e⟩
          ⟨r1 :: r2 :: r3 :: rest, ws, sl, slog⟩ true =
        Res.exn (Exn.err (logMsg "open" "AT command does not provide the expected result"))
          ⟨port, speed, pin, verbose, true, STATUS_ERROR,
            some (logMsg "open" "AT command does not provide the expected result")⟩
          ⟨rest, ws ++ ["AT\r", "AT\r", "AT\r"],
            sl ++ [OPEN_RETRY_SLEEP, OPEN_RETRY_SLEEP, OPEN_RETRY_SLEEP],
            slog ++ [STATUS_OPENING, STATUS_ERROR]⟩) := by
  refine ⟨fun h => ?_, fun h h1 => ?_, fun h h1 h2 => ?_, fun h h1 h2 h3 => ?_,
    fun h h1 h2 h3 => ?_⟩
  · simp [«open», __log__, setStatus, h, Res.bind, LOG_INFO, LOG_WARNING, LOG_ERROR]
  · subst h
    simp [«open», openAttempts, __request__, __log__, setStatus, h1,
      OPEN_RETRY_COUNT, OPEN_RETRY_SLEEP, Res.bind, LOG_INFO, LOG_WARNING, LOG_ERROR]
  · subst h
    simp [«open», openAttempts, __request__, __log__, setStatus, h1, h2,
      OPEN_RETRY_COUNT, OPEN_RETRY_SLEEP, Res.bind, LOG_INFO, LOG_WARNING, LOG_ERROR]
  · subst h
    simp [«open», openAttempts, __request__, __log__, setStatus, h1, h2, h3,
      OPEN_RETRY_COUNT, OPEN_RETRY_SLEEP, Res.bind, LOG_INFO, LOG_WARNING, LOG_ERROR]
  · subst h
    simp [«open», openAttempts, __request__, __log__, setStatus, h1, h2, h3,
      OPEN_RETRY_COUNT, OPEN_RETRY_SLEEP, Res.bind, LOG_INFO, LOG_WARNING, LOG_ERROR]

/-- Claim C3, witness: concrete sessions exercising every branch of the
`open()` characterization — rejection from a non-Closed state, success at the
first, second and third attempt, and fatal failure after three bad reads. -/
theorem C3_open_behavior_witness :
    («open» ⟨"/dev/ttyAMA0", 115200, "4250", false, true, STATUS_IDLE, none⟩
        ⟨[["OK"], ["OK"], ["OK"]], [], [], []⟩ true).raised = true ∧
    («open» ⟨"/dev/ttyAMA0", 115200, "4250", false, false, STATUS_CLOSED, none⟩
        ⟨[["AT", "OK"], [], []], [], [], []⟩ true).valOf = some true ∧
    («open» ⟨"/dev/ttyAMA0", 115200, "4250", false, false, STATUS_CLOSED, none⟩
        ⟨[[], ["AT", "OK"], []], [], [], []⟩ true).valOf = some true ∧
    («open» ⟨"/dev/ttyAMA0", 115200, "4250", false, false, STATUS_CLOSED, none⟩
        ⟨[[], [], ["AT", "OK"]], [], [], []⟩ true).valOf = some true ∧
    («open» ⟨"/dev/ttyAMA0", 115200, "4250", false, false, STATUS_CLOSED, none⟩
        ⟨[[], [], []], [], [], []⟩ true).state.status = STATUS_ERROR := by
  refine ⟨?_, ?_, ?_, ?_, ?_⟩
  · rw [(C3_open_behavior "/dev/ttyAMA0" 115200 "4250" false true STATUS_IDLE none
      ["OK"] ["OK"] ["OK"] [] [] [] []).1 (by decide)]
    rfl
  · rw [(C3_open_behavior "/dev/ttyAMA0" 115200 "4250" false false STATUS_CLOSED none
      ["AT", "OK"] [] [] [] [] [] []).2.1 rfl (by decide)]
    rfl
  · rw [(C3_open_behavior "/dev/ttyAMA0" 115200 "4250" false false STATUS_CLOSED none
      [] ["AT", "OK"] [] [] [] [] []).2.2.1 rfl (by decide) (by decide)]
    rfl
  · rw [(C3_open_behavior "/dev/ttyAMA0" 115200 "4250" false false STATUS_CLOSED none
      [] [] ["AT", "OK"] [] [] [] []).2.2.2.1 rfl (by decide) (by decide) (by decide)]
    rfl
  · rw [(C3_open_behavior "/dev/ttyAMA0" 115200 "4250" false false STATUS_CLOSED none
      [] [] [] [] [] [] []).2.2.2.2 rfl (by decide) (by decide) (by decide)]
    rfl

/-- Claim C4: `is_connected()` issues `AT+COPS?`; when the last response line
is not strictly equal to `"OK"` it records a non-fatal Warning (error message
set, nothing raised) and returns `false` with the status unchanged; when the
last line is `"OK"` it returns `false` exactly when the line at fixed index 2
equals `"+COPS: 0"`, and `true` for any other content there, with the whole
state unchanged. -/
theorem C4_is_connected_behavior (port : String) (speed : Nat) (pin : String)
    (verbose : Bool) (stat : Nat) (e : Option String)
    (rc : List String) (rest : List (List String))
    (ws : List String) (sl slog : List Nat) (l : String)
    (hl : rc.getLast? = some l) :
    (l ≠ "OK" →
      is_connected ⟨port, speed, pin, verbose, true, stat, e⟩ ⟨rc :: rest, ws, sl, slog⟩ =
        Res.ok (some false)
          ⟨port, speed, pin, verbose, true, stat,
            some (logMsg "connect" "Unexpected result while checking phone network")⟩
          ⟨rest, ws ++ ["AT+COPS?\r"], sl, slog⟩) ∧
    (∀ x : String, l = "OK" → rc[2]? = some x →
      is_connected ⟨port, speed, pin, verbose, true, stat, e⟩ ⟨rc :: rest, ws, sl, slog⟩ =
        Res.ok (some (if x = "+COPS: 0" then false else true))
          ⟨port, speed, pin, verbose, true, stat, e⟩
          ⟨rest, ws ++ ["AT+COPS?\r"], sl, slog⟩) := by
  constructor
  · intro hne
    simp [is_connected, __request__, __log__, setStatus, hl, hne, Res.bind,
      LOG_INFO, LOG_WARNING, LOG_ERROR]
  · intro x hok h2
    subst hok
    by_cases hx : x = "+COPS: 0" <;>
      simp [is_connected, __request__, hl, h2, hx, Res.bind]

/-- Claim C4, witness: a garbage final line warns and reports `false` leaving
the status untouched; `"+COPS: 0"` at index 2 reports `false`; an operator
name at index 2 reports `true`. -/
theorem C4_is_connected_behavior_witness :
    (is_connected ⟨"/dev/ttyAMA0", 115200, "4250", false, true, STATUS_DISCONNECTED, none⟩
        ⟨[["garbage"]], [], [], []⟩).valOf = some (some false) ∧
    (is_connected ⟨"/dev/ttyAMA0", 115200, "4250", false, true, STATUS_DISCONNECTED, none⟩
        ⟨[["AT+COPS?", "", "+COPS: 0", "OK"]], [], [], []⟩).valOf = some (some false) ∧
    (is_connected ⟨"/dev/ttyAMA0", 115200, "4250", false, true, STATUS_DISCONNECTED, none⟩
        ⟨[["AT+COPS?", "", "+COPS: 0,0,\"Proximus\"", "OK"]], [], [], []⟩).valOf =
      some (some true) := by
  refine ⟨?_, ?_, ?_⟩
  · rw [(C4_is_connected_behavior "/dev/ttyAMA0" 115200 "4250" false STATUS_DISCONNECTED none
      ["garbage"] [] [] [] [] "garbage" rfl).1 (by decide)]
    rfl
  · rw [(C4_is_connected_behavior "/dev/ttyAMA0" 115200 "4250" false STATUS_DISCONNECTED none
      ["AT+COPS?", "", "+COPS: 0", "OK"] [] [] [] [] "OK" rfl).2 "+COPS: 0" rfl rfl]
    rfl
  · rw [(C4_is_connected_behavior "/dev/ttyAMA0" 115200 "4250" false STATUS_DISCONNECTED none
      ["AT+COPS?", "", "+COPS: 0,0,\"Proximus\"", "OK"] [] [] [] []
      "OK" rfl).2 "+COPS: 0,0,\"Proximus\"" rfl rfl]
    simp [Res.valOf]

/-- Claim C5: `send(phone, message)` first issues `AT+CMGF=1`; when that
response's final line is not strictly `"OK"` it records a Warning, returns
`false` and leaves the status unchanged; otherwise it issues
`AT+CMGS="<phone>"` and then the message body terminated by the Ctrl-Z byte,
returning `true` regardless of what those two commands' reads yield
(quantified over every remaining response queue). -/
theorem C5_send_behavior (port : String) (speed : Nat) (pin : String)
    (verbose : Bool) (stat : Nat) (e : Option String)
    (r1 : List String) (rest : List (List String))
    (ws : List String) (sl slog : List Nat) (phone msg l : String)
    (hl : r1.getLast? = some l) :
    (l ≠ "OK" →
      send ⟨port, speed, pin, verbose, true, stat, e⟩ ⟨r1 :: rest, ws, sl, slog⟩ phone msg =
        Res.ok false
          ⟨port, speed, pin, verbose, true, stat,
            some (logMsg "send" "The message format could not be set to TEXT")⟩
          ⟨rest, ws ++ ["AT+CMGF=1\r"], sl, slog⟩) ∧
    (l = "OK" →
      send ⟨port, speed, pin, verbose, true, stat, e⟩ ⟨r1 :: rest, ws, sl, slog⟩ phone msg =
        Res.ok true
          ⟨port, speed, pin, verbose, true, stat, none⟩
          ⟨rest.drop 2,
            ws ++ ["AT+CMGF=1\r", "AT+CMGS=\"" ++ phone ++ "\"" ++ "\r", msg ++ "\x1a" ++ "\r"],
            sl, slog⟩) := by
  constructor
  · intro hne
    simp [send, __request__, __log__, setStatus, hl, hne, Res.bind,
      LOG_INFO, LOG_WARNING, LOG_ERROR]
  · intro hok
    subst hok
    rcases rest with _ | ⟨r2, rest⟩
    · simp [send, __request__, hl, Res.bind]
    · rcases rest with _ | ⟨r3, rest⟩ <;> simp [send, __request__, hl, Res.bind]

/-- Claim C5, witness: a failed format-set read returns `false` with the
Warning recorded; a successful one issues the compose command and the Ctrl-Z
terminated body and returns `true` even though the remaining reads are
empty. -/
theorem C5_send_behavior_witness :
    (send ⟨"/dev/ttyAMA0", 115200, "4250", false, true, STATUS_IDLE, none⟩
        ⟨[["ERROR"]], [], [], []⟩ "0471234567" "Hello").valOf = some false ∧
    (send ⟨"/dev/ttyAMA0", 115200, "4250", false, true, STATUS_IDLE, none⟩
        ⟨[["AT+CMGF=1", "OK"]], [], [], []⟩ "0471234567" "Hello").world.writes =
      ["AT+CMGF=1\r", "AT+CMGS=\"0471234567\"\r", "Hello\x1a\r"] := by
  constructor
  · rw [(C5_send_behavior "/dev/ttyAMA0" 115200 "4250" false STATUS_IDLE none
      ["ERROR"] [] [] [] [] "0471234567" "Hello" "ERROR" rfl).1 (by decide)]
    rfl
  · rw [(C5_send_behavior "/dev/ttyAMA0" 115200 "4250" false STATUS_IDLE none
      ["AT+CMGF=1", "OK"] [] [] [] [] "0471234567" "Hello" "OK" rfl).2 rfl]
    rfl

/-- Claim C6 (amended): `send()` never touches the status field at all: from
any starting state, in particular Idle, the state observed after `send()` is
the starting state and no status assignment (in particular none to
`STATUS_BUSY`) is performed during the call; the momentary Busy bracket the
claim describes does not exist in the code. -/
theorem C6_send_state_invariant (st : FonaState) (w : World) (phone msg : String) :
    (send st w phone msg).state.status = st.status ∧
    (send st w phone msg).world.statusLog = w.statusLog := by
  obtain ⟨resp, ws, sl, slog⟩ := w
  by_cases h : st.serialOpen
  case neg =>
    simp [send, __request__, h, Res.bind, Res.state, Res.world]
  case pos =>
    rcases resp with _ | ⟨r, rest⟩
    · simp [send, __request__, h, Res.bind, Res.state, Res.world]
    · rcases hr : r.getLast? with _ | l
      · simp [send, __request__, h, hr, Res.bind, Res.state, Res.world]
      · by_cases hl : l = "OK"
        · subst hl
          rcases rest with _ | ⟨r2, rest⟩
          · simp [send, __request__, h, hr, Res.bind, Res.state, Res.world]
          · rcases rest with _ | ⟨r3, rest⟩ <;>
              simp [send, __request__, h, hr, Res.bind, Res.state, Res.world]
        · simp [send, __request__, __log__, h, hr, hl, Res.bind, Res.state, Res.world,
            LOG_INFO, LOG_WARNING, LOG_ERROR]

/-- Claim C6, counterexample to the claim as stated: a concrete `send()` from
Idle with a successful format-set response completes with the state Idle
throughout and an empty status-assignment log — the session never transitions
to Busy during the call. -/
theorem C6_counterexample :
    (send ⟨"/dev/ttyAMA0", 115200, "4250", false, true, STATUS_IDLE, none⟩
        ⟨[["AT+CMGF=1", "OK"]], [], [], []⟩ "0471234567" "Hello").world.statusLog = [] ∧
    (send ⟨"/dev/ttyAMA0", 115200, "4250", false, true, STATUS_IDLE, none⟩
        ⟨[["AT+CMGF=1", "OK"]], [], [], []⟩ "0471234567" "Hello").state.status = STATUS_IDLE ∧
    (send ⟨"/dev/ttyAMA0", 115200, "4250", false, true, STATUS_IDLE, none⟩
        ⟨[["AT+CMGF=1", "OK"]], [], [], []⟩ "0471234567" "Hello").valOf = some true ∧
    STATUS_BUSY ∉ (send ⟨"/dev/ttyAMA0", 115200, "4250", false, true, STATUS_IDLE, none⟩
        ⟨[["AT+CMGF=1", "OK"]], [], [], []⟩ "0471234567" "Hello").world.statusLog := by
  decide

/-- Claim C1 (amended): from Disconnected with the initial `is_connected()`
check reporting no carrier, `connect()` sends the PIN command
`AT+CPIN=<pin>`, sleeps the fixed 10 seconds, re-checks `is_connected()`, and
transitions to Idle returning `true` iff the re-check succeeds; otherwise it
returns `false` with the session left in the Connecting state (set before the
PIN was sent and never reset to Disconnected), whether the failed re-check
saw `+COPS: 0` or warned on an unexpected final line. -/
theorem C1_connect_pin_path (port : String) (speed : Nat) (pin : String)
    (verbose : Bool) (e : Option String)
    (r1 rp r2 : List String) (rest : List (List String))
    (ws : List String) (sl slog : List Nat)
    (hr1 : r1.getLast? = some "OK") (hr1b : r1[2]? = some "+COPS: 0") :
    (∀ x : String, r2.getLast? = some "OK" → r2[2]? = some x → x ≠ "+COPS: 0" →
      connect ⟨port, speed, pin, verbose, true, STATUS_DISCONNECTED, e⟩
          ⟨r1 :: rp :: r2 :: rest, ws, sl, slog⟩ =
        Res.ok true
          ⟨port, speed, pin, verbose, true, STATUS_IDLE, none⟩
          ⟨rest, ws ++ ["AT+COPS?\r", "AT+CPIN=" ++ pin ++ "\r", "AT+COPS?\r"],
            sl ++ [10], slog ++ [STATUS_CONNECTING, STATUS_IDLE]⟩) ∧
    (r2.getLast? = some "OK" → r2[2]? = some "+COPS: 0" →
      connect ⟨port, speed, pin, verbose, true, STATUS_DISCONNECTED, e⟩
          ⟨r1 :: rp :: r2 :: rest, ws, sl, slog⟩ =
        Res.ok false
          ⟨port, speed, pin, verbose, true, STATUS_CONNECTING, none⟩
          ⟨rest, ws ++ ["AT+COPS?\r", "AT+CPIN=" ++ pin ++ "\r", "AT+COPS?\r"],
            sl ++ [10], slog ++ [STATUS_CONNECTING]⟩) ∧
    (∀ l2 : String, r2.getLast? = some l2 → l2 ≠ "OK" →
      connect ⟨port, speed, pin, verbose, true, STATUS_DISCONNECTED, e⟩
          ⟨r1 :: rp :: r2 :: rest, ws, sl, slog⟩ =
        Res.ok false
          ⟨port, speed, pin, verbose, true, STATUS_CONNECTING,
            some (logMsg "connect" "Unexpected result while checking phone network")⟩
          ⟨rest, ws ++ ["AT+COPS?\r", "AT+CPIN=" ++ pin ++ "\r", "AT+COPS?\r"],
            sl ++ [10], slog ++ [STATUS_CONNECTING]⟩) := by
  refine ⟨fun x h2a h2b hx => ?_, fun h2a h2b => ?_, fun l2 h2a hl2 => ?_⟩
  · simp [connect, is_connected, __request__, __log__, setStatus, Res.bind,
      hr1, hr1b, h2a, h2b, hx, LOG_INFO, LOG_WARNING, LOG_ERROR]
  · simp [connect, is_connected, __request__, __log__, setStatus, Res.bind,
      hr1, hr1b, h2a, h2b, LOG_INFO, LOG_WARNING, LOG_ERROR]
  · simp [connect, is_connected, __request__, __log__, setStatus, Res.bind,
      hr1, hr1b, h2a, hl2, LOG_INFO, LOG_WARNING, LOG_ERROR]

/-- Claim C1, witness: with no carrier on the first check, a concrete
`connect()` run ends Idle with `true` when the re-check sees an operator,
ends Connecting with `false` when the re-check still sees `+COPS: 0`, and
ends Connecting with `false` when the re-check warns on a garbage line. -/
theorem C1_connect_pin_path_witness :
    (connect ⟨"/dev/ttyUSB0", 9600, "1234", false, true, STATUS_DISCONNECTED, none⟩
        ⟨[["AT+COPS?", "", "+COPS: 0", "OK"], ["OK"],
          ["AT+COPS?", "", "+COPS: 0,0,\"Proximus\"", "OK"]], [], [], []⟩).valOf =
      some true ∧
    (connect ⟨"/dev/ttyUSB0", 9600, "1234", false, true, STATUS_DISCONNECTED, none⟩
        ⟨[["AT+COPS?", "", "+COPS: 0", "OK"], ["OK"],
          ["AT+COPS?", "", "+COPS: 0", "OK"]], [], [], []⟩).state.status =
      STATUS_CONNECTING ∧
    (connect ⟨"/dev/ttyUSB0", 9600, "1234", false, true, STATUS_DISCONNECTED, none⟩
        ⟨[["AT+COPS?", "", "+COPS: 0", "OK"], ["OK"], ["garbage"]], [], [], []⟩).valOf =
      some false := by
  refine ⟨?_, ?_, ?_⟩
  · rw [(C1_connect_pin_path "/dev/ttyUSB0" 9600 "1234" false none
      ["AT+COPS?", "", "+COPS: 0", "OK"] ["OK"]
      ["AT+COPS?", "", "+COPS: 0,0,\"Proximus\"", "OK"] [] [] [] []
      rfl rfl).1 "+COPS: 0,0,\"Proximus\"" rfl rfl (by decide)]
    rfl
  · rw [(C1_connect_pin_path "/dev/ttyUSB0" 9600 "1234" false none
      ["AT+COPS?", "", "+COPS: 0", "OK"] ["OK"]
      ["AT+COPS?", "", "+COPS: 0", "OK"] [] [] [] []
      rfl rfl).2.1 rfl rfl]
    rfl
  · rw [(C1_connect_pin_path "/dev/ttyUSB0" 9600 "1234" false none
      ["AT+COPS?", "", "+COPS: 0", "OK"] ["OK"] ["garbage"] [] [] [] []
      rfl rfl).2.2 "garbage" rfl (by decide)]
    rfl

/-- Claim C1, counterexample to the claim as stated: in a concrete failed
PIN-and-recheck run from Disconnected, `connect()` returns `false` but the
session does not remain in the Disconnected state — it is left in the
Connecting state (status 3). -/
theorem C1_counterexample :
    (connect ⟨"/dev/ttyAMA0", 115200, "4250", false, true, STATUS_DISCONNECTED, none⟩
        ⟨[["AT+COPS?", "", "+COPS: 0", "OK"], ["OK"],
          ["AT+COPS?", "", "+COPS: 0", "OK"]], [], [], []⟩).valOf = some false ∧
    (connect ⟨"/dev/ttyAMA0", 115200, "4250", false, true, STATUS_DISCONNECTED, none⟩
        ⟨[["AT+COPS?", "", "+COPS: 0", "OK"], ["OK"],
          ["AT+COPS?", "", "+COPS: 0", "OK"]], [], [], []⟩).state.status =
      STATUS_CONNECTING ∧
    STATUS_CONNECTING ≠ STATUS_DISCONNECTED := by
  decide

/-- Claim C2 (amended): from the terminal Error state, `open()` and
`connect()` are indeed rejected with a fatal Error (exception raised, no
protocol command written, status still Error), but `send()` and
`is_connected()` perform no state check at all: invoked with
`status == STATUS_ERROR` and a live serial handle they issue their protocol
commands normally (`send()` writes `AT+CMGF=1` and, on a good response, the
compose commands; `is_connected()` writes `AT+COPS?`). -/
theorem C2_error_state_enforcement :
    (∀ (port : String) (speed : Nat) (pin : String) (verbose so : Bool)
        (e : Option String) (w : World) (k : Bool),
      («open» ⟨port, speed, pin, verbose, so, STATUS_ERROR, e⟩ w k).raised = true ∧
      («open» ⟨port, speed, pin, verbose, so, STATUS_ERROR, e⟩ w k).state.status =
        STATUS_ERROR ∧
      («open» ⟨port, speed, pin, verbose, so, STATUS_ERROR, e⟩ w k).world.writes =
        w.writes) ∧
    (∀ (port : String) (speed : Nat) (pin : String) (verbose so : Bool)
        (e : Option String) (w : World),
      (connect ⟨port, speed, pin, verbose, so, STATUS_ERROR, e⟩ w).raised = true ∧
      (connect ⟨port, speed, pin, verbose, so, STATUS_ERROR, e⟩ w).state.status =
        STATUS_ERROR ∧
      (connect ⟨port, speed, pin, verbose, so, STATUS_ERROR, e⟩ w).world.writes =
        w.writes) ∧
    (∀ (port : String) (speed : Nat) (pin : String) (verbose : Bool)
        (e : Option String) (resp : List (List String)) (ws : List String)
        (sl slog : List Nat) (phone msg : String),
      ∃ t : List String,
        (send ⟨port, speed, pin, verbose, true, STATUS_ERROR, e⟩
            ⟨resp, ws, sl, slog⟩ phone msg).world.writes = ws ++ "AT+CMGF=1\r" :: t) ∧
    (∀ (port : String) (speed : Nat) (pin : String) (verbose : Bool)
        (e : Option String) (resp : List (List String)) (ws : List String)
        (sl slog : List Nat),
      (is_connected ⟨port, speed, pin, verbose, true, STATUS_ERROR, e⟩
          ⟨resp, ws, sl, slog⟩).world.writes = ws ++ ["AT+COPS?\r"]) := by
  refine ⟨?_, ?_, ?_, ?_⟩
  · intro port speed pin verbose so e w k
    refine ⟨?_, ?_, ?_⟩ <;>
      simp [«open», __log__, setStatus, Res.bind, Res.raised, Res.state, Res.world,
        STATUS_ERROR, STATUS_CLOSED, LOG_INFO, LOG_WARNING, LOG_ERROR]
  · intro port speed pin verbose so e w
    refine ⟨?_, ?_, ?_⟩ <;>
      simp [connect, __log__, setStatus, Res.bind, Res.raised, Res.state, Res.world,
        STATUS_ERROR, STATUS_DISCONNECTED, LOG_INFO, LOG_WARNING, LOG_ERROR]
  · intro port speed pin verbose e resp ws sl slog phone msg
    rcases resp with _ | ⟨r, rest⟩
    · exact ⟨[], by simp [send, __request__, Res.bind, Res.world]⟩
    · rcases hr : r.getLast? with _ | l
      · exact ⟨[], by simp [send, __request__, hr, Res.bind, Res.world]⟩
      · by_cases hl : l = "OK"
        · subst hl
          rcases rest with _ | ⟨r2, rest⟩
          · exact ⟨["AT+CMGS=\"" ++ phone ++ "\"" ++ "\r", msg ++ "\x1a" ++ "\r"], by
              simp [send, __request__, hr, Res.bind, Res.world]⟩
          · rcases rest with _ | ⟨r3, rest⟩ <;>
              exact ⟨["AT+CMGS=\"" ++ phone ++ "\"" ++ "\r", msg ++ "\x1a" ++ "\r"], by
                simp [send, __request__, hr, Res.bind, Res.world]⟩
        · exact ⟨[], by simp [send, __request__, __log__, hr, hl, Res.bind, Res.world,
            LOG_INFO, LOG_WARNING, LOG_ERROR]⟩
  · intro port speed pin verbose e resp ws sl slog
    rcases resp with _ | ⟨r, rest⟩
    · simp [is_connected, __request__, Res.bind, Res.world]
    · rcases hr : r.getLast? with _ | l
      · simp [is_connected, __request__, hr, Res.bind, Res.world]
      · by_cases hl : l = "OK"
        · subst hl
          rcases h2 : r[2]? with _ | x
          · simp [is_connected, __request__, hr, h2, Res.bind, Res.world]
          · by_cases hx : x = "+COPS: 0" <;>
              simp [is_connected, __request__, hr, h2, hx, Res.bind, Res.world]
        · simp [is_connected, __request__, __log__, hr, hl, Res.bind, Res.world,
            LOG_INFO, LOG_WARNING, LOG_ERROR]

/-- Claim C2, counterexample to the claim as stated: a concrete session in
the terminal Error state with a live serial handle is not rejected by
`send()` — all three protocol commands are written and it returns `true`;
`is_connected()` likewise issues `AT+COPS?` from Error. -/
theorem C2_counterexample :
    (send ⟨"/dev/ttyAMA0", 115200, "4250", false, true, STATUS_ERROR, none⟩
        ⟨[["AT+CMGF=1", "OK"]], [], [], []⟩ "0471234567" "Hello").valOf = some true ∧
    (send ⟨"/dev/ttyAMA0", 115200, "4250", false, true, STATUS_ERROR, none⟩
        ⟨[["AT+CMGF=1", "OK"]], [], [], []⟩ "0471234567" "Hello").world.writes =
      ["AT+CMGF=1\r", "AT+CMGS=\"0471234567\"\r", "Hello\x1a\r"] ∧
    (is_connected ⟨"/dev/ttyAMA0", 115200, "4250", false, true, STATUS_ERROR, none⟩
        ⟨[["AT+COPS?", "", "+COPS: 0", "OK"]], [], [], []⟩).world.writes =
      ["AT+COPS?\r"] := by
  decide

/-- Claim C8 (amended): `open()`, `connect()`, `close()` and `send()` do
clear the stored last-error message at entry (their outcome is insensitive to
the prior `__error__` value), but `is_connected()` and `panic()` never clear
it: `is_connected()` leaves the prior message in place through a successful
query, and `panic()` still holds it when the raw reopen fails. -/
theorem C8_error_clearing :
    (∀ (st : FonaState) (w : World) (k : Bool),
      «open» st w k = «open» { st with error := none } w k) ∧
    (∀ (st : FonaState) (w : World),
      connect st w = connect { st with error := none } w) ∧
    (∀ (st : FonaState) (w : World),
      close st w = close { st with error := none } w) ∧
    (∀ (st : FonaState) (w : World) (phone msg : String),
      send st w phone msg = send { st with error := none } w phone msg) ∧
    (∀ (port : String) (speed : Nat) (pin : String) (verbose : Bool) (stat : Nat)
        (e : Option String) (rc : List String) (rest : List (List String))
        (ws : List String) (sl slog : List Nat) (x : String),
      rc.getLast? = some "OK" → rc[2]? = some x →
      (is_connected ⟨port, speed, pin, verbose, true, stat, e⟩
          ⟨rc :: rest, ws, sl, slog⟩).state.error = e) ∧
    (∀ (port : String) (speed : Nat) (pin : String) (verbose so : Bool) (stat : Nat)
        (e : Option String) (w : World),
      (panic ⟨port, speed, pin, verbose, so, stat, e⟩ w false).state.error = e) := by
  refine ⟨fun st w k => rfl, fun st w => rfl, fun st w => rfl, fun st w p m => rfl,
    ?_, fun port speed pin verbose so stat e w => rfl⟩
  intro port speed pin verbose stat e rc rest ws sl slog x hok h2
  by_cases hx : x = "+COPS: 0" <;>
    simp [is_connected, __request__, hok, h2, hx, Res.bind, Res.state]

/-- Claim C8, witness: a successful `is_connected()` query run on a session
holding a stale error message leaves that message untouched. -/
theorem C8_error_clearing_witness :
    (is_connected ⟨"/dev/ttyUSB0", 9600, "1234", false, true, STATUS_IDLE,
        some "previous failure"⟩
        ⟨[["AT+COPS?", "", "+COPS: 0,0,\"Base\"", "OK"]], [], [], []⟩).state.error =
      some "previous failure" :=
  C8_error_clearing.2.2.2.2.1 "/dev/ttyUSB0" 9600 "1234" false STATUS_IDLE
    (some "previous failure") ["AT+COPS?", "", "+COPS: 0,0,\"Base\"", "OK"]
    [] [] [] [] "+COPS: 0,0,\"Base\"" rfl rfl

/-- Claim C8, counterexample to the claim as stated: `is_connected()` invoked
on a concrete session carrying a stale last-error message performs its whole
protocol exchange and returns while the stale message is still stored — the
last-error observable was never reset at entry; `panic()` with a failing raw
reopen likewise still holds the stale message. -/
theorem C8_counterexample :
    (is_connected ⟨"/dev/ttyAMA0", 115200, "4250", false, true, STATUS_DISCONNECTED,
        some "stale error"⟩
        ⟨[["AT+COPS?", "", "+COPS: 0", "OK"]], [], [], []⟩).state.error =
      some "stale error" ∧
    (is_connected ⟨"/dev/ttyAMA0", 115200, "4250", false, true, STATUS_DISCONNECTED,
        some "stale error"⟩
        ⟨[["AT+COPS?", "", "+COPS: 0", "OK"]], [], [], []⟩).raised = false ∧
    (panic ⟨"/dev/ttyAMA0", 115200, "4250", false, true, STATUS_IDLE, some "stale error"⟩
        ⟨[], [], [], []⟩ false).state.error = some "stale error" := by
  decide

/-- Claim C9: every session starts in the Closed state, and constructing a
session whose `AT` probe never yields a response whose last line starts with
`"OK"` across all 3 attempts completes construction — the fatal failure
raised inside `open()` is caught by the constructor — with final status
`STATUS_ERROR` and a non-empty last-error message. -/
theorem C9_init_failure (port : String) (speed : Nat) (pin : String) (verbose : Bool)
    (r1 r2 r3 : List String) (rest : List (List String))
    (ws : List String) (sl slog : List Nat)
    (h1 : okResp r1 = false) (h2 : okResp r2 = false) (h3 : okResp r3 = false) :
    (initState port speed pin verbose).status = STATUS_CLOSED ∧
    (__init__ port speed pin verbose ⟨r1 :: r2 :: r3 :: rest, ws, sl, slog⟩ true).1.status =
      STATUS_ERROR ∧
    (__init__ port speed pin verbose ⟨r1 :: r2 :: r3 :: rest, ws, sl, slog⟩ true).1.error =
      some (logMsg "open" "AT command does not provide the expected result") ∧
    logMsg "open" "AT command does not provide the expected result" ≠ "" := by
  refine ⟨rfl, ?_, ?_, by decide⟩ <;>
    simp [__init__, initState, «open», openAttempts, __request__, __log__, setStatus,
      h1, h2, h3, OPEN_RETRY_COUNT, OPEN_RETRY_SLEEP, Res.bind,
      STATUS_CLOSED, LOG_INFO, LOG_WARNING, LOG_ERROR]

/-- Claim C9, witness: a session constructed over a probe that reads three
empty responses finishes construction in the Error state with the probe
failure message stored. -/
theorem C9_init_failure_witness :
    (__init__ "/dev/ttyAMA0" 115200 "4250" false ⟨[[], [], []], [], [], []⟩ true).1.status =
      STATUS_ERROR ∧
    (__init__ "/dev/ttyAMA0" 115200 "4250" false ⟨[[], [], []], [], [], []⟩ true).1.error ≠
      none :=
  ⟨(C9_init_failure "/dev/ttyAMA0" 115200 "4250" false [] [] [] [] [] [] []
      (by decide) (by decide) (by decide)).2.1,
   by
    rw [(C9_init_failure "/dev/ttyAMA0" 115200 "4250" false [] [] [] [] [] [] []
      (by decide) (by decide) (by decide)).2.2.1]
    decide⟩

end Fonalib
